import Mathlib

/-
Verification of the tabularis-csv-plugin core (src/plugin.py): delimiter
resolution, per-column type inference, folder loading into an in-memory
store, session caching, method dispatch, and the paginated query path.

Modelling conventions:
- Python strings are Lean `String`s; `str.strip()` is modelled over ASCII
  whitespace (`pyStrip`).
- Python's `int(...)` / `float(...)` literal acceptance is modelled for
  ASCII inputs (optional sign, underscore-separated digit groups, decimal /
  exponent forms, `inf` / `infinity` / `nan`), matching CPython's grammar
  restricted to ASCII.
- The filesystem is an explicit `FileSys` value: which paths are
  directories and the (sorted) file listing of each folder.  A file carries
  its already-parsed CSV records (the stdlib `csv.reader` is external to
  the repository) plus an `accessible` flag: `false` models a path whose
  `open` raises an `OSError`.
- The sqlite backing store is a list of tables; `CREATE TABLE IF NOT
  EXISTS` is a no-op on an existing name, and preparing an `INSERT` whose
  value count differs from the existing table's column count fails, as
  sqlite reports ("table t has N columns but M values were supplied").
- The process-wide globals `_conn` / `_loaded_folder` / `_column_types`
  form `PluginState`; exceptions are `Except` values.
-/

namespace CsvPlugin

/-- Characters removed by Python's `str.strip()` with no argument
(ASCII whitespace; the model restricts to ASCII). -/
def isSpaceChar (c : Char) : Bool :=
  c == ' ' || c == '\t' || c == '\n' || c == '\r' || c == '\x0b' || c == '\x0c'

/-- Model of Python `str.strip()`: drop leading and trailing whitespace. -/
def pyStrip (s : String) : String :=
  String.mk (((s.data.dropWhile isSpaceChar).reverse.dropWhile isSpaceChar).reverse)

/-- Consume the longest valid tail of a Python digit part (digits with
single underscores between digit groups) and return the leftover
characters.  The first digit has already been checked by the caller. -/
def digitPartRest : List Char → List Char
  | '_' :: c :: cs => if c.isDigit then digitPartRest cs else '_' :: c :: cs
  | c :: cs => if c.isDigit then digitPartRest cs else c :: cs
  | [] => []

/-- A complete Python digit part: one or more ASCII digits, with single
underscores allowed between digits (`1_000`), nothing left over. -/
def isDigitPartAll (l : List Char) : Bool :=
  match l with
  | [] => false
  | c :: _ => c.isDigit && (digitPartRest l).isEmpty

/-- Model of Python `int(s)` acceptance for an already-stripped ASCII
string: optional sign, then a digit part. -/
def isPyInt (s : String) : Bool :=
  match s.data with
  | '+' :: cs => isDigitPartAll cs
  | '-' :: cs => isDigitPartAll cs
  | cs => isDigitPartAll cs

/-- Exponent suffix of a float literal: optional sign then a digit part. -/
def expPart (l : List Char) : Bool :=
  match l with
  | '+' :: r => isDigitPartAll r
  | '-' :: r => isDigitPartAll r
  | r => isDigitPartAll r

/-- After the mantissa: either nothing, or an `e` / `E` exponent. -/
def expOrEnd (l : List Char) : Bool :=
  match l with
  | [] => true
  | 'e' :: cs => expPart cs
  | 'E' :: cs => expPart cs
  | _ => false

/-- After the integer digit part of a float literal: end, a fractional
part, or an exponent. -/
def afterIntPart (l : List Char) : Bool :=
  match l with
  | [] => true
  | '.' :: cs =>
    (match cs with
     | [] => true
     | c :: _ => if c.isDigit then expOrEnd (digitPartRest cs) else expOrEnd cs)
  | 'e' :: cs => expPart cs
  | 'E' :: cs => expPart cs
  | _ => false

/-- Numeric (non-special) float literal body, sign already removed. -/
def parseNumber (l : List Char) : Bool :=
  match l with
  | [] => false
  | '.' :: cs =>
    (match cs with
     | [] => false
     | c :: _ => c.isDigit && expOrEnd (digitPartRest cs))
  | c :: _ => c.isDigit && afterIntPart (digitPartRest l)

/-- Special float literals `inf`, `infinity`, `nan`, case-insensitive. -/
def isSpecialFloat (l : List Char) : Bool :=
  let low := l.map Char.toLower
  low == "inf".data || low == "infinity".data || low == "nan".data

/-- Float literal body after the optional sign. -/
def floatBody (l : List Char) : Bool :=
  isSpecialFloat l || parseNumber l

/-- Model of Python `float(s)` acceptance for an already-stripped ASCII
string. -/
def isPyFloat (s : String) : Bool :=
  match s.data with
  | '+' :: cs => floatBody cs
  | '-' :: cs => floatBody cs
  | cs => floatBody cs

/-- The `for v in non_empty: int(v.strip())` loop inside a `try` block:
runs the parser on each value in order and stops (raising, i.e. `false`)
at the first value the parser rejects. -/
def parseAllLoop (p : String → Bool) : List String → Bool
  | [] => true
  | v :: rest => if p (pyStrip v) then parseAllLoop p rest else false

/-- `non_empty = [v for v in values if v.strip()]` in `_infer_type`. -/
def non_empty (values : List String) : List String :=
  values.filter (fun v => pyStrip v ≠ "")

/-- `_infer_type` from src/plugin.py: INTEGER / REAL / TEXT from a sample
of raw string values. -/
def infer_type (values : List String) : String :=
  if (non_empty values).isEmpty then "TEXT"
  else if parseAllLoop isPyInt (non_empty values) then "INTEGER"
  else if parseAllLoop isPyFloat (non_empty values) then "REAL"
  else "TEXT"

example : infer_type ["1", " 2 ", ""] = "INTEGER" := by decide
example : infer_type ["1", "2.5"] = "REAL" := by decide
example : infer_type ["1", "x"] = "TEXT" := by decide
example : infer_type ["", "  "] = "TEXT" := by decide
example : infer_type ["1_000", "-3", "+7"] = "INTEGER" := by decide
example : infer_type ["nan", "-inf", "1.e5", ".5"] = "REAL" := by decide
example : infer_type ["1_", "2"] = "TEXT" := by decide

/-- The escalating parse loop succeeds exactly when every value passes the
parser (the `try` block returns the type only if no iteration raised). -/
lemma parseAllLoop_eq_all (p : String → Bool) (l : List String) :
    parseAllLoop p l = l.all (fun v => p (pyStrip v)) := by
  induction l with
  | nil => rfl
  | cons v rest ih => by_cases h : p (pyStrip v) <;> simp [parseAllLoop, h, ih]

/-- C1: after discarding empty/whitespace-only values, `_infer_type`
returns TEXT when no values remain; INTEGER when every retained value
parses as an integer; otherwise REAL when every retained value parses as a
real number; otherwise TEXT — and a single non-integer value anywhere in
the sample demotes the column out of INTEGER. -/
theorem infer_type_spec (values : List String) :
    (non_empty values = [] → infer_type values = "TEXT")
    ∧ (non_empty values ≠ [] →
        (∀ v ∈ non_empty values, isPyInt (pyStrip v) = true) →
        infer_type values = "INTEGER")
    ∧ ((∃ v ∈ non_empty values, ¬ isPyInt (pyStrip v) = true) →
        (∀ v ∈ non_empty values, isPyFloat (pyStrip v) = true) →
        infer_type values = "REAL")
    ∧ ((∃ v ∈ non_empty values, ¬ isPyInt (pyStrip v) = true) →
        (∃ v ∈ non_empty values, ¬ isPyFloat (pyStrip v) = true) →
        infer_type values = "TEXT")
    ∧ ((∃ v ∈ non_empty values, ¬ isPyInt (pyStrip v) = true) →
        infer_type values ≠ "INTEGER") := by
  have hI := parseAllLoop_eq_all isPyInt (non_empty values)
  have hF := parseAllLoop_eq_all isPyFloat (non_empty values)
  refine ⟨?_, ?_, ?_, ?_, ?_⟩
  · intro h
    simp [infer_type, h]
  · intro hne hall
    have hl : parseAllLoop isPyInt (non_empty values) = true := by
      rw [hI, List.all_eq_true]; exact hall
    simp [infer_type, hl, List.isEmpty_iff, hne]
  · intro hexI hallF
    have hli : parseAllLoop isPyInt (non_empty values) = false := by
      rw [hI, List.all_eq_false]; exact hexI
    have hlf : parseAllLoop isPyFloat (non_empty values) = true := by
      rw [hF, List.all_eq_true]; exact hallF
    have hne : non_empty values ≠ [] := by
      rcases hexI with ⟨v, hv, _⟩
      intro hnil; rw [hnil] at hv; exact (List.not_mem_nil v) hv
    simp [infer_type, hli, hlf, List.isEmpty_iff, hne]
  · intro hexI hexF
    have hli : parseAllLoop isPyInt (non_empty values) = false := by
      rw [hI, List.all_eq_false]; exact hexI
    have hlf : parseAllLoop isPyFloat (non_empty values) = false := by
      rw [hF, List.all_eq_false]; exact hexF
    simp [infer_type, hli, hlf]
  · intro hexI
    have hli : parseAllLoop isPyInt (non_empty values) = false := by
      rw [hI, List.all_eq_false]; exact hexI
    by_cases he : (non_empty values).isEmpty <;>
      by_cases hf : parseAllLoop isPyFloat (non_empty values) <;>
        simp [infer_type, he, hf, hli]

/-- Witness for C1 at a concrete sample. -/
theorem infer_type_spec_witness : infer_type ["7", " 8 ", ""] = "INTEGER" :=
  (infer_type_spec ["7", " 8 ", ""]).2.1 (by decide) (by decide)

/-- Result of `db.execute(query)` as reported by the embedded engine:
the description's column names, the materialized rows (cells rendered as
text), and the cursor's rowcount. -/
structure SqlResult where
  columns : List String
  rows : List (List String)
  rowcount : Int
deriving DecidableEq

/-- Echoed pagination parameters of the result envelope. -/
structure Pagination where
  page : Int
  page_size : Int
  total_rows : Nat
deriving DecidableEq

/-- The `execute_query` result envelope. -/
structure QueryEnvelope where
  columns : List String
  rows : List (List String)
  affected_rows : Int
  truncated : Bool
  pagination : Pagination
deriving DecidableEq

/-- The `execute_query` branch of `handle`, after the engine has
materialized the result: clamp `page` / `page_size` with `max(1, ·)`,
slice `all_rows[offset : offset + page_size]`, and build the envelope. -/
def execute_query_envelope (res : SqlResult) (page0 page_size0 : Int) :
    QueryEnvelope :=
  let page := max 1 page0
  let page_size := max 1 page_size0
  let total := res.rows.length
  let offset := (page - 1) * page_size
  { columns := res.columns
    rows := (res.rows.drop offset.toNat).take page_size.toNat
    affected_rows := if res.rowcount ≥ 0 then res.rowcount else 0
    truncated := (total : Int) > offset + page_size
    pagination := { page := page, page_size := page_size, total_rows := total } }

example :
    execute_query_envelope { columns := ["a"], rows := [["1"], ["2"], ["3"]], rowcount := -1 } 2 1 =
      { columns := ["a"], rows := [["2"]], affected_rows := 0, truncated := true,
        pagination := { page := 2, page_size := 1, total_rows := 3 } } := by decide

/-- C2: with page ≥ 1 and page_size ≥ 1 the envelope holds exactly the
rows with indices in [(page-1)*page_size, page*page_size), reports
total_rows as the full materialized count, and reports truncated iff more
rows exist past the window. -/
theorem execute_query_paginates (res : SqlResult) (page page_size : Int)
    (hp : 1 ≤ page) (hps : 1 ≤ page_size) :
    (∀ i : Nat,
        (execute_query_envelope res page page_size).rows[i]? =
          if (i : Int) < page_size then res.rows[((page - 1) * page_size).toNat + i]? else none)
    ∧ (execute_query_envelope res page page_size).pagination.total_rows = res.rows.length
    ∧ ((execute_query_envelope res page page_size).truncated ↔
        (res.rows.length : Int) > page * page_size) := by
  have hpc : max 1 page = page := max_eq_right hp
  have hpsc : max 1 page_size = page_size := max_eq_right hps
  refine ⟨?_, ?_, ?_⟩
  · intro i
    simp only [execute_query_envelope, hpc, hpsc]
    by_cases hi : (i : Int) < page_size
    · have hips : i < page_size.toNat := by omega
      rw [if_pos hi, List.getElem?_take_of_lt hips, List.getElem?_drop]
    · have hips : page_size.toNat ≤ i := by omega
      rw [if_neg hi]
      apply List.getElem?_eq_none
      calc (List.take page_size.toNat (res.rows.drop ((page - 1) * page_size).toNat)).length
          ≤ page_size.toNat := by rw [List.length_take]; exact min_le_left _ _
        _ ≤ i := hips
  · simp [execute_query_envelope, hpc, hpsc]
  · simp only [execute_query_envelope, hpc, hpsc]
    constructor
    · intro h
      have := of_decide_eq_true h
      nlinarith [this]
    · intro h
      apply decide_eq_true
      nlinarith [h]

/-- Witness for C2: the spec's own example, page 2 of size 10 over a
25-row result returns rows 11–20, truncated, total_rows 25. -/
theorem execute_query_paginates_witness :
    (∀ i : Nat,
        (execute_query_envelope
            { columns := ["n"], rows := (List.range 25).map (fun n => [toString n]), rowcount := -1 }
            2 10).rows[i]? =
          if (i : Int) < 10 then
            ((List.range 25).map (fun n => [toString n]))[(((2 : Int) - 1) * 10).toNat + i]?
          else none)
    ∧ (execute_query_envelope
          { columns := ["n"], rows := (List.range 25).map (fun n => [toString n]), rowcount := -1 }
          2 10).pagination.total_rows = 25
    ∧ ((execute_query_envelope
          { columns := ["n"], rows := (List.range 25).map (fun n => [toString n]), rowcount := -1 }
          2 10).truncated ↔ (25 : Int) > 2 * 10) := by
  have h := execute_query_paginates
    { columns := ["n"], rows := (List.range 25).map (fun n => [toString n]), rowcount := -1 }
    2 10 (by decide) (by decide)
  refine ⟨h.1, ?_, ?_⟩
  · rw [h.2.1]; decide
  · rw [h.2.2]; decide

/-- C10: out-of-range page / page_size parameters never fail; each is
clamped to 1, the result equals the result for the clamped parameters, and
the clamped values are echoed in the pagination object. -/
theorem execute_query_clamps (res : SqlResult) (page page_size : Int)
    (h : page < 1 ∨ page_size < 1) :
    execute_query_envelope res page page_size =
      execute_query_envelope res (max 1 page) (max 1 page_size)
    ∧ (execute_query_envelope res page page_size).pagination.page = max 1 page
    ∧ (execute_query_envelope res page page_size).pagination.page_size = max 1 page_size
    ∧ (page < 1 → (execute_query_envelope res page page_size).pagination.page = 1)
    ∧ (page_size < 1 → (execute_query_envelope res page page_size).pagination.page_size = 1) := by
  have h1 : max 1 (max 1 page) = max 1 page := by omega
  have h2 : max 1 (max 1 page_size) = max 1 page_size := by omega
  refine ⟨?_, ?_, ?_, ?_, ?_⟩
  · simp only [execute_query_envelope, h1, h2]
  · rfl
  · rfl
  · intro hp
    have : max 1 page = 1 := by omega
    simp [execute_query_envelope, this]
  · intro hps
    have : max 1 page_size = 1 := by omega
    simp [execute_query_envelope, this]

/-- Witness for C10 with page = 0 and page_size = -3. -/
theorem execute_query_clamps_witness :
    (execute_query_envelope { columns := ["a"], rows := [["1"], ["2"]], rowcount := -1 } 0 (-3) =
      execute_query_envelope { columns := ["a"], rows := [["1"], ["2"]], rowcount := -1 }
        (max 1 0) (max 1 (-3)))
    ∧ (execute_query_envelope { columns := ["a"], rows := [["1"], ["2"]], rowcount := -1 }
        0 (-3)).pagination.page = 1 :=
  ⟨(execute_query_clamps { columns := ["a"], rows := [["1"], ["2"]], rowcount := -1 } 0 (-3)
      (Or.inl (by decide))).1,
   (execute_query_clamps { columns := ["a"], rows := [["1"], ["2"]], rowcount := -1 } 0 (-3)
      (Or.inl (by decide))).2.2.2.1 (by decide)⟩

/-- Model of Python `str.lower()` restricted to ASCII. -/
def lowerString (s : String) : String :=
  String.mk (s.data.map Char.toLower)

deriving instance DecidableEq for Except

/-- One directory entry as the loader sees it: the path's stem and suffix,
whether opening the file succeeds (`false` models an `OSError` from an
inaccessible path), and the records produced by the csv reader with the
resolved delimiter. -/
structure SrcFile where
  stem : String
  suffix : String
  accessible : Bool
  records : List (List String)
deriving DecidableEq

/-- The filesystem as the plugin observes it: which paths are directories,
and the sorted `glob("*")` / `iterdir()` listing of each path.  As in
`pathlib`, globbing a path that is not a directory yields an empty
listing rather than raising. -/
structure FileSys where
  isDir : String → Bool
  files : String → List SrcFile

/-- `path.suffix.lower() in {".csv", ".tsv"}`. -/
def recognizedFile (f : SrcFile) : Bool :=
  lowerString f.suffix == ".csv" || lowerString f.suffix == ".tsv"

/-- One sqlite table: name, column names from the CREATE statement, and
inserted rows. -/
structure Table where
  name : String
  headers : List String
  rows : List (List String)
deriving DecidableEq

/-- The in-memory sqlite database: tables in creation order. -/
abbrev Store := List Table

/-- Insert-or-replace on an association list, modelling Python dict
assignment: an existing key keeps its position, a new key is appended. -/
def alInsert {β : Type} (m : List (String × β)) (k : String) (v : β) :
    List (String × β) :=
  if m.any (fun q => q.1 == k) then
    m.map (fun q => if q.1 == k then (k, v) else q)
  else m ++ [(k, v)]

/-- Association-list lookup with a default, modelling `dict.get(k, d)`. -/
def alGet {β : Type} (m : List (String × β)) (k : String) (d : β) : β :=
  match m.find? (fun q => q.1 == k) with
  | some q => q.2
  | none => d

/-- The global `_column_types`: table name → (column name → data type). -/
abbrev TypeMap := List (String × List (String × String))

/-- `headers = [h.strip() for h in raw_headers]`. -/
def file_headers (raw_headers : List String) : List String :=
  raw_headers.map pyStrip

/-- The row comprehension of `_load_folder`: keep only rows whose field
count equals the header count, trimming every cell of a kept row. -/
def file_rows (headers : List String) (raw : List (List String)) :
    List (List String) :=
  (raw.filter (fun row => row.length == headers.length)).map
    (fun row => row.map pyStrip)

/-- `{col: _infer_type([row[i] for row in sample]) for i, col in
enumerate(headers)}` — the dict comprehension, so a duplicate header name
keeps its first position and takes the last index's inferred type. -/
def table_types (headers : List String) (sample : List (List String)) :
    List (String × String) :=
  headers.enum.foldl
    (fun acc p => alInsert acc p.2 (infer_type (sample.map (fun row => row.getD p.1 ""))))
    []

/-- `_INFER_SAMPLE = 500`. -/
def INFER_SAMPLE : Nat := 500

/-- Exceptions that escape the per-file loading body (there is no
per-file try/except around it in `_load_folder`). -/
inductive LoadErr where
  /-- `OSError` from opening an inaccessible path (sniffing or reading). -/
  | inaccessible (stem : String)
  /-- `sqlite3.OperationalError`: preparing an INSERT whose value count
  differs from the column count of the already-existing table of the same
  name (duplicate stems; CREATE TABLE IF NOT EXISTS was a no-op). -/
  | tableArity (table : String)
  /-- `sqlite3.OperationalError` from the string-built CREATE TABLE
  statement on a fresh name: a duplicate column name, an empty column
  list, or identifier quoting broken by a quote character. -/
  | createFail (table : String)
deriving DecidableEq

/-- Does the list of names contain a duplicate? -/
def hasDup : List String → Bool
  | [] => false
  | h :: t => t.contains h || hasDup t

/-- Whether the string-built `CREATE TABLE "name" ("h1" TEXT, ...)`
statement prepares successfully on a fresh table name: sqlite rejects an
empty column list (blank header row → syntax error), a duplicate column
name (names compared ASCII case-insensitively), and quoting broken by a
quote character inside the table name or a column name. -/
def createOk (name : String) (headers : List String) : Bool :=
  !headers.isEmpty
    && !hasDup (headers.map lowerString)
    && !(name.data.contains '"')
    && !(headers.any (fun h => h.data.contains '"'))

/-- The file's header row produces a CREATE statement that prepares
cleanly (vacuously true for an empty file, which is skipped before any
statement runs). -/
def headersOk (f : SrcFile) : Bool :=
  match f.records with
  | [] => true
  | raw_headers :: _ => createOk f.stem (file_headers raw_headers)

/-- `CREATE TABLE IF NOT EXISTS` followed by `executemany INSERT`: a new
name creates the table (failing as sqlite does on a defective column
list, see `createOk`) and inserts; an existing name leaves the schema
untouched — the parser skips the column definitions entirely, so no
duplicate-column check runs — and inserts when the value count matches
the existing column count, raising otherwise. -/
def storeInsert (store : Store) (name : String) (headers : List String)
    (rows : List (List String)) : Except LoadErr Store :=
  match store.find? (fun t => t.name == name) with
  | none =>
    if createOk name headers then
      .ok (store ++ [{ name := name, headers := headers, rows := rows }])
    else .error (.createFail name)
  | some t =>
    if t.headers.length == headers.length then
      .ok (store.map (fun u => if u.name == name then
        { u with rows := u.rows ++ rows } else u))
    else .error (.tableArity name)

/-- The per-file loop body of `_load_folder`, threading the store and the
global `_column_types` (which was reset to `{}` at entry).  On an
exception the partially built type map is kept: the global was already
mutated when the exception propagates. -/
def loadFiles : List SrcFile → Store → TypeMap → Except LoadErr Store × TypeMap
  | [], store, types => (.ok store, types)
  | f :: rest, store, types =>
    if recognizedFile f then
      if f.accessible then
        match f.records with
        | [] => loadFiles rest store types
        | raw_headers :: dataRows =>
          let headers := file_headers raw_headers
          let rows := file_rows headers dataRows
          let types' := alInsert types f.stem (table_types headers (rows.take INFER_SAMPLE))
          match storeInsert store f.stem headers rows with
          | .ok store' => loadFiles rest store' types'
          | .error e => (.error e, types')
      else (.error (.inaccessible f.stem), types)
    else loadFiles rest store types

/-- `_load_folder`: reset `_column_types`, open a fresh store, and load
every recognized file of the folder's sorted listing. -/
def load_folder (fs : FileSys) (folder : String) : Except LoadErr Store × TypeMap :=
  loadFiles (fs.files folder) [] []

example :
    loadFiles [{ stem := "t", suffix := ".csv", accessible := true,
                 records := [["a", "b"], ["1", "2"], ["3"]] }] [] [] =
      (.ok [{ name := "t", headers := ["a", "b"], rows := [["1", "2"]] }],
       [("t", [("a", "INTEGER"), ("b", "INTEGER")])]) := by decide

/-- C3: only rows whose field count equals the header count are retained
(cells trimmed); ragged rows are silently dropped — no error, no padding —
and a file with header `a,b,c` and data row `1,2` contributes zero rows. -/
theorem ragged_rows_dropped (headers : List String) (raw : List (List String)) :
    (∀ r ∈ file_rows headers raw, r.length = headers.length)
    ∧ (file_rows headers raw).length =
        (raw.filter (fun row => row.length == headers.length)).length
    ∧ (∀ r ∈ raw, r.length = headers.length →
        (r.map pyStrip) ∈ file_rows headers raw)
    ∧ file_rows (file_headers ["a", "b", "c"]) [["1", "2"]] = []
    ∧ loadFiles [{ stem := "t", suffix := ".csv", accessible := true,
                   records := [["a", "b", "c"], ["1", "2"]] }] [] [] =
        (.ok [{ name := "t", headers := ["a", "b", "c"], rows := [] }],
         [("t", [("a", "TEXT"), ("b", "TEXT"), ("c", "TEXT")])]) := by
  refine ⟨?_, ?_, ?_, by decide, by decide⟩
  · intro r hr
    rcases List.mem_map.mp hr with ⟨r0, hr0, hmap⟩
    have hlen : r0.length == headers.length := (List.mem_filter.mp hr0).2
    rw [← hmap, List.length_map]
    exact eq_of_beq hlen
  · exact List.length_map _ _
  · intro r hr hlen
    apply List.mem_map.mpr
    refine ⟨r, List.mem_filter.mpr ⟨hr, ?_⟩, rfl⟩
    exact beq_iff_eq.mpr hlen

/-- Witness for C3: the full row survives, through the general clause. -/
theorem ragged_rows_dropped_witness :
    ["1", "2", "3"].map pyStrip ∈
      file_rows (file_headers ["a", "b", "c"]) [["1", "2"], ["1", "2", "3"]] :=
  (ragged_rows_dropped (file_headers ["a", "b", "c"])
      [["1", "2"], ["1", "2", "3"]]).2.2.1 ["1", "2", "3"] (by decide) (by decide)

/-- If every recognized file is accessible, every recognized file's header
row creates cleanly, and no two listed files share a stem, the load pass
completes: empty files, ragged rows and undecodable content never abort
it. -/
lemma loadFiles_ok_of_fresh (files : List SrcFile) :
    ∀ (store : Store) (types : TypeMap),
    (∀ f ∈ files, recognizedFile f = true → f.accessible = true) →
    (∀ f ∈ files, recognizedFile f = true → headersOk f = true) →
    (∀ f ∈ files, recognizedFile f = true → ∀ t ∈ store, t.name ≠ f.stem) →
    files.Pairwise (fun a b => a.stem ≠ b.stem) →
    ∃ st, (loadFiles files store types).1 = Except.ok st := by
  induction files with
  | nil => exact fun store types _ _ _ _ => ⟨store, rfl⟩
  | cons f rest ih =>
    intro store types hacc hheads hfresh hdist
    rw [List.pairwise_cons] at hdist
    by_cases hrec : recognizedFile f = true
    · have hac : f.accessible = true := hacc f (List.mem_cons_self f rest) hrec
      cases hrecord : f.records with
      | nil =>
        have : loadFiles (f :: rest) store types = loadFiles rest store types := by
          simp [loadFiles, hrec, hac, hrecord]
        rw [this]
        exact ih store types
          (fun g hg => hacc g (List.mem_cons_of_mem f hg))
          (fun g hg => hheads g (List.mem_cons_of_mem f hg))
          (fun g hg => hfresh g (List.mem_cons_of_mem f hg)) hdist.2
      | cons rh rs =>
        have hfind : store.find? (fun t => t.name == f.stem) = none := by
          rw [List.find?_eq_none]
          intro t ht
          simpa using hfresh f (List.mem_cons_self f rest) hrec t ht
        have hcre : createOk f.stem (file_headers rh) = true := by
          have := hheads f (List.mem_cons_self f rest) hrec
          simpa [headersOk, hrecord] using this
        have hins : storeInsert store f.stem (file_headers rh)
            (file_rows (file_headers rh) rs) =
            Except.ok (store ++
              [⟨f.stem, file_headers rh, file_rows (file_headers rh) rs⟩]) := by
          simp [storeInsert, hfind, hcre]
        have hstep : loadFiles (f :: rest) store types =
            loadFiles rest
              (store ++ [⟨f.stem, file_headers rh, file_rows (file_headers rh) rs⟩])
              (alInsert types f.stem
                (table_types (file_headers rh)
                  ((file_rows (file_headers rh) rs).take INFER_SAMPLE))) := by
          simp [loadFiles, hrec, hac, hrecord, hins]
        rw [hstep]
        apply ih _ _
          (fun g hg => hacc g (List.mem_cons_of_mem f hg))
          (fun g hg => hheads g (List.mem_cons_of_mem f hg))
          _ hdist.2
        intro g hg hgrec t ht hname
        rcases List.mem_append.mp ht with hl | hr
        · exact hfresh g (List.mem_cons_of_mem f hg) hgrec t hl hname
        · have : t.name = f.stem := by
            rcases List.mem_singleton.mp hr with rfl
            rfl
          exact hdist.1 g hg (by rw [← hname, this])
    · have : loadFiles (f :: rest) store types = loadFiles rest store types := by
        simp [loadFiles, hrec]
      rw [this]
      exact ih store types
        (fun g hg => hacc g (List.mem_cons_of_mem f hg))
        (fun g hg => hheads g (List.mem_cons_of_mem f hg))
        (fun g hg => hfresh g (List.mem_cons_of_mem f hg)) hdist.2

/-- An inaccessible recognized file anywhere in the listing makes the
whole load pass end in an error. -/
lemma loadFiles_error_of_inaccessible (files : List SrcFile) :
    ∀ (store : Store) (types : TypeMap) (f : SrcFile), f ∈ files →
    recognizedFile f = true → f.accessible = false →
    ∃ e, (loadFiles files store types).1 = Except.error e := by
  induction files with
  | nil => intro _ _ f hf; exact absurd hf (List.not_mem_nil f)
  | cons g rest ih =>
    intro store types f hf hrec hacc
    rcases List.mem_cons.mp hf with rfl | hmem
    · refine ⟨.inaccessible f.stem, ?_⟩
      simp [loadFiles, hrec, hacc]
    · by_cases hgrec : recognizedFile g = true
      · by_cases hgacc : g.accessible = true
        · cases hgrecord : g.records with
          | nil =>
            have : loadFiles (g :: rest) store types = loadFiles rest store types := by
              simp [loadFiles, hgrec, hgacc, hgrecord]
            rw [this]; exact ih store types f hmem hrec hacc
          | cons rh rs =>
            cases hins : storeInsert store g.stem (file_headers rh)
                (file_rows (file_headers rh) rs) with
            | ok store' =>
              have : loadFiles (g :: rest) store types =
                  loadFiles rest store'
                    (alInsert types g.stem
                      (table_types (file_headers rh)
                        ((file_rows (file_headers rh) rs).take INFER_SAMPLE))) := by
                simp [loadFiles, hgrec, hgacc, hgrecord, hins]
              rw [this]; exact ih _ _ f hmem hrec hacc
            | error e =>
              refine ⟨e, ?_⟩
              simp [loadFiles, hgrec, hgacc, hgrecord, hins]
        · refine ⟨.inaccessible g.stem, ?_⟩
          have : g.accessible = false := by
            cases hb : g.accessible
            · rfl
            · exact absurd hb hgacc
          simp [loadFiles, hgrec, this]
      · have : loadFiles (g :: rest) store types = loadFiles rest store types := by
          simp [loadFiles, hgrec]
        rw [this]; exact ih store types f hmem hrec hacc

/-- C5 (amended): a per-file condition the loader handles (empty file,
ragged rows) never aborts the pass; a hard filesystem error aborts the
whole load; and so does any backing-store statement failure — a CREATE
defeated by duplicate column names, a blank header row, or a quote-broken
identifier, or a duplicate-stem INSERT with a conflicting column count. -/
theorem load_failure_isolation (files : List SrcFile) :
    ((∀ f ∈ files, recognizedFile f = true → f.accessible = true) →
      (∀ f ∈ files, recognizedFile f = true → headersOk f = true) →
      files.Pairwise (fun a b => a.stem ≠ b.stem) →
      ∃ st, (loadFiles files [] []).1 = Except.ok st)
    ∧ (∀ f ∈ files, recognizedFile f = true → f.accessible = false →
      ∃ e, (loadFiles files [] []).1 = Except.error e)
    ∧ (loadFiles [⟨"dup", ".csv", true, [["a", "a"], ["1", "2"]]⟩,
        ⟨"z", ".csv", true, [["h"], ["1"]]⟩] [] []).1 =
        Except.error (.createFail "dup")
    ∧ (loadFiles [⟨"blank", ".csv", true, [[], ["1"]]⟩] [] []).1 =
        Except.error (.createFail "blank")
    ∧ (loadFiles [⟨"q", ".csv", true, [["a\"b"], ["1"]]⟩] [] []).1 =
        Except.error (.createFail "q") :=
  ⟨fun hacc hheads hdist =>
      loadFiles_ok_of_fresh files [] [] hacc hheads
        (fun _ _ _ _ ht => absurd ht (List.not_mem_nil _)) hdist,
   fun f hf hrec hacc =>
      loadFiles_error_of_inaccessible files [] [] f hf hrec hacc,
   by decide, by decide, by decide⟩

/-- Witness for C5: a directory whose first file is empty and whose second
file has a ragged row still loads. -/
theorem load_failure_isolation_witness :
    ∃ st, (loadFiles
      [{ stem := "empty", suffix := ".csv", accessible := true, records := [] },
       { stem := "t", suffix := ".csv", accessible := true,
         records := [["a", "b"], ["1"], ["2", "3"]] }] [] []).1 = Except.ok st :=
  (load_failure_isolation
    [{ stem := "empty", suffix := ".csv", accessible := true, records := [] },
     { stem := "t", suffix := ".csv", accessible := true,
       records := [["a", "b"], ["1"], ["2", "3"]] }]).1
    (by decide) (by decide) (by decide)

/-- Counterexample for C5 as stated: two accessible files with the same
stem and different column counts (`orders.csv`, `orders.tsv`).  Loading
the second raises a store statement error — not a filesystem error — and
the whole load aborts: the third file's table `users` is never created. -/
theorem load_nonfs_failure_aborts :
    loadFiles
      [{ stem := "orders", suffix := ".csv", accessible := true,
         records := [["a", "b"], ["1", "2"]] },
       { stem := "orders", suffix := ".tsv", accessible := true,
         records := [["x", "y", "z"], ["7", "8", "9"]] },
       { stem := "users", suffix := ".csv", accessible := true,
         records := [["u"], ["alice"]] }] [] [] =
      (Except.error (LoadErr.tableArity "orders"),
       [("orders", [("x", "INTEGER"), ("y", "INTEGER"), ("z", "INTEGER")])]) := by
  decide

/-- The process-wide globals: `_conn`, `_loaded_folder`, `_column_types`.
`conn = none` models the initial `_conn is None`. -/
structure PluginState where
  conn : Option Store
  loaded_folder : Option String
  column_types : TypeMap
deriving DecidableEq

/-- The initial state of the process. -/
def initState : PluginState :=
  { conn := none, loaded_folder := none, column_types := [] }

/-- `_ensure_loaded`: reload when nothing is cached or the folder changed,
otherwise return the cached connection.  `_load_folder` reassigns the
global `_column_types` before the exception-free part completes, so a
failing reload keeps the old `_conn` / `_loaded_folder` but the new
attempt's partial `_column_types`. -/
def ensure_loaded (fs : FileSys) (folder : String) (s : PluginState) :
    PluginState × Except LoadErr Store :=
  match s.conn with
  | some st =>
    if s.loaded_folder = some folder then (s, .ok st)
    else
      match load_folder fs folder with
      | (.ok store, types) =>
        ({ conn := some store, loaded_folder := some folder, column_types := types },
         .ok store)
      | (.error e, types) =>
        ({ s with column_types := types }, .error e)
  | none =>
    match load_folder fs folder with
    | (.ok store, types) =>
      ({ conn := some store, loaded_folder := some folder, column_types := types },
       .ok store)
    | (.error e, types) =>
      ({ s with column_types := types }, .error e)

/-- `Path(folder).name`, modelled for forward-slash paths: the last
non-empty path component. -/
def path_name (folder : String) : String :=
  ((folder.splitOn "/").filter (fun c => c ≠ "")).getLastD ""

/-- Insertion step for sorting table names. -/
def insertSorted (x : String) : List String → List String
  | [] => [x]
  | y :: ys => if decide (x < y) || x == y then x :: y :: ys else y :: insertSorted x ys

/-- `ORDER BY name` in the sqlite_master queries. -/
def sortStrings (l : List String) : List String :=
  l.foldr insertSorted []

/-- One column descriptor as returned by `_pragma_columns`. -/
structure ColumnInfo where
  name : String
  data_type : String
  is_pk : Bool
  is_nullable : Bool
  is_auto_increment : Bool
  default_value : Option String
deriving DecidableEq

/-- `_pragma_columns`: the table's declared columns (empty for an unknown
table, as `PRAGMA table_info` returns no rows), each typed from the cached
`_column_types` with TEXT as fallback, never a primary key, always
nullable, never auto-increment, no default. -/
def pragma_columns (db : Store) (types : TypeMap) (table : String) :
    List ColumnInfo :=
  match db.find? (fun t => t.name == table) with
  | none => []
  | some t =>
    t.headers.map (fun h =>
      { name := h, data_type := alGet (alGet types table []) h "TEXT",
        is_pk := false, is_nullable := true, is_auto_increment := false,
        default_value := none })

/-- Successful results of `handle`, per method family. -/
inductive RpcResult where
  /-- test_connection: `{"success": true}`. -/
  | success : RpcResult
  /-- A plain list of names (databases, tables, or the always-empty
  schema-level lists). -/
  | names (xs : List String) : RpcResult
  /-- get_columns. -/
  | columns (cols : List ColumnInfo) : RpcResult
  /-- get_schema_snapshot: each table with its columns (the foreign-key
  list of every entry is constantly empty and omitted from the model). -/
  | snapshot (tables : List (String × List ColumnInfo)) : RpcResult
  /-- get_all_columns_batch. -/
  | batchCols (m : List (String × List ColumnInfo)) : RpcResult
  /-- get_all_foreign_keys_batch: each requested table maps to an empty
  list, so only the keys are carried. -/
  | batchFks (tables : List String) : RpcResult
  /-- execute_query. -/
  | queryRes (env : QueryEnvelope) : RpcResult
deriving DecidableEq

/-- Exceptions raised by `handle` (all surfaced as RPC errors by `main`). -/
inductive HandleError where
  /-- ValueError: `Not a directory`. -/
  | notDir (folder : String)
  /-- ValueError: `No .csv / .tsv files found`. -/
  | noFiles (folder : String)
  /-- An exception propagating out of `_load_folder`. -/
  | load (e : LoadErr)
  /-- ValueError: `CSV files are read-only`. -/
  | readOnly
  /-- An error from executing the user's SQL. -/
  | query (msg : String)
  /-- NotImplementedError for an unknown method. -/
  | notImplemented (method : String)
deriving DecidableEq

/-- Request parameters, with the dict-get defaults of `handle`. -/
structure Params where
  database : String := ""
  table : String := ""
  tables : List String := []
  query : String := ""
  page : Int := 1
  page_size : Int := 100

/-- `handle(method, params)` from src/plugin.py.  The SQL engine is the
abstract `runSql` argument (full SQL is delegated to sqlite); everything
else follows the dispatch chain of the source. -/
def handle (runSql : Store → String → Except String SqlResult) (fs : FileSys)
    (method : String) (p : Params) (s : PluginState) :
    PluginState × Except HandleError RpcResult :=
  let folder := p.database
  if method = "test_connection" then
    if fs.isDir folder = false then (s, .error (.notDir folder))
    else if ((fs.files folder).filter recognizedFile).isEmpty then
      (s, .error (.noFiles folder))
    else
      match ensure_loaded fs folder s with
      | (s', .ok _) => (s', .ok .success)
      | (s', .error e) => (s', .error (.load e))
  else
    match ensure_loaded fs folder s with
    | (s', .error e) => (s', .error (.load e))
    | (s', .ok db) =>
      if method = "get_databases" then (s', .ok (.names [path_name folder]))
      else if method ∈ ["get_schemas", "get_foreign_keys", "get_indexes",
          "get_views", "get_routines", "get_routine_parameters"] then
        (s', .ok (.names []))
      else if method = "get_tables" then
        (s', .ok (.names (sortStrings (db.map Table.name))))
      else if method = "get_columns" then
        (s', .ok (.columns (pragma_columns db s'.column_types p.table)))
      else if method = "get_schema_snapshot" then
        (s', .ok (.snapshot ((sortStrings (db.map Table.name)).map
          (fun n => (n, pragma_columns db s'.column_types n)))))
      else if method = "get_all_columns_batch" then
        (s', .ok (.batchCols (p.tables.map
          (fun t => (t, pragma_columns db s'.column_types t)))))
      else if method = "get_all_foreign_keys_batch" then
        (s', .ok (.batchFks p.tables))
      else if method = "execute_query" then
        match runSql db (pyStrip p.query) with
        | .error e => (s', .error (.query e))
        | .ok res => (s', .ok (.queryRes (execute_query_envelope res p.page p.page_size)))
      else if method ∈ ["insert_record", "update_record", "delete_record"] then
        (s', .error .readOnly)
      else (s', .error (.notImplemented method))

/-- C7: when the requested directory matches the cache, `_ensure_loaded`
returns the cached store with the state untouched and without consulting
the filesystem, so repeating any non-test_connection method for the same
directory leaves the state unchanged and returns identical results. -/
theorem ensure_loaded_idempotent
    (runSql : Store → String → Except String SqlResult) (fs fs' : FileSys)
    (method : String) (p : Params) (s : PluginState) (st : Store)
    (hconn : s.conn = some st) (hfolder : s.loaded_folder = some p.database)
    (hm : method ≠ "test_connection") :
    ensure_loaded fs p.database s = (s, .ok st)
    ∧ ensure_loaded fs' p.database s = ensure_loaded fs p.database s
    ∧ (handle runSql fs method p s).1 = s
    ∧ handle runSql fs' method p s = handle runSql fs method p s
    ∧ handle runSql fs method p ((handle runSql fs method p s).1) =
        handle runSql fs method p s := by
  have hel : ∀ g : FileSys, ensure_loaded g p.database s = (s, .ok st) := by
    intro g
    simp [ensure_loaded, hconn, hfolder]
  have hst : (handle runSql fs method p s).1 = s := by
    simp only [handle, if_neg hm, hel fs]
    split_ifs <;> try rfl
    cases runSql st (pyStrip p.query) <;> rfl
  refine ⟨hel fs, (hel fs').trans (hel fs).symm, hst, ?_, ?_⟩
  · simp only [handle, if_neg hm, hel fs, hel fs']
  · rw [hst]

/-- Witness for C7 at a concrete cached session. -/
theorem ensure_loaded_idempotent_witness :
    ensure_loaded ⟨fun _ => false, fun _ => []⟩ "d"
        ⟨some [⟨"t", ["a"], []⟩], some "d", []⟩ =
      (⟨some [⟨"t", ["a"], []⟩], some "d", []⟩, .ok [⟨"t", ["a"], []⟩]) :=
  (ensure_loaded_idempotent (fun _ _ => Except.error "") ⟨fun _ => false, fun _ => []⟩
      ⟨fun _ => true, fun _ => []⟩ "get_tables" { database := "d" }
      ⟨some [⟨"t", ["a"], []⟩], some "d", []⟩ [⟨"t", ["a"], []⟩]
      rfl rfl (by decide)).1

/-- C6 (amended): on a successful reload the whole session triple is
replaced at once and a cached hit changes nothing; but `_column_types` is
a separate global reassigned during the load, so a failed reload leaves
the old `_conn` / `_loaded_folder` with the failed attempt's partial type
map. -/
theorem session_replacement (fs : FileSys) (folder : String) (s : PluginState) :
    (∀ store types, (s.conn = none ∨ s.loaded_folder ≠ some folder) →
      load_folder fs folder = (.ok store, types) →
      ensure_loaded fs folder s =
        ({ conn := some store, loaded_folder := some folder, column_types := types },
         .ok store))
    ∧ (∀ st, s.conn = some st → s.loaded_folder = some folder →
        ensure_loaded fs folder s = (s, .ok st))
    ∧ (∀ e types, (s.conn = none ∨ s.loaded_folder ≠ some folder) →
        load_folder fs folder = (.error e, types) →
        ensure_loaded fs folder s =
          ({ conn := s.conn, loaded_folder := s.loaded_folder, column_types := types },
           .error e)) := by
  refine ⟨?_, ?_, ?_⟩
  · intro store types hmiss hload
    cases hc : s.conn with
    | none => simp [ensure_loaded, hc, hload]
    | some st =>
      rcases hmiss with hnone | hfold
      · rw [hc] at hnone; exact absurd hnone (by simp)
      · simp [ensure_loaded, hc, hfold, hload]
  · intro st hconn hfold
    simp [ensure_loaded, hconn, hfold]
  · intro e types hmiss hload
    cases hc : s.conn with
    | none => simp [ensure_loaded, hc, hload]
    | some st =>
      rcases hmiss with hnone | hfold
      · rw [hc] at hnone; exact absurd hnone (by simp)
      · simp [ensure_loaded, hc, hfold, hload]

/-- Witness for C6 at a concrete successful reload. -/
theorem session_replacement_witness :
    ensure_loaded
        ⟨fun f => f == "d", fun f => if f == "d" then
          [⟨"t", ".csv", true, [["a"], ["1"]]⟩] else []⟩ "d" initState =
      ({ conn := some [⟨"t", ["a"], [["1"]]⟩], loaded_folder := some "d",
         column_types := [("t", [("a", "INTEGER")])] },
       .ok [⟨"t", ["a"], [["1"]]⟩]) :=
  (session_replacement
      ⟨fun f => f == "d", fun f => if f == "d" then
        [⟨"t", ".csv", true, [["a"], ["1"]]⟩] else []⟩ "d" initState).1
    [⟨"t", ["a"], [["1"]]⟩] [("t", [("a", "INTEGER")])] (Or.inl rfl) (by decide)

/-- Counterexample for C6 as stated: a session for folder `a` is cached;
a request for folder `b` whose only file is inaccessible fails to reload.
The next observable state keeps the old store and directory key but the
new attempt's (empty) type map — a half-updated session, while the old
type map was nonempty. -/
theorem failed_reload_half_updated :
    handle (fun _ _ => Except.error "")
        ⟨fun f => f == "b", fun f => if f == "b" then
          [⟨"x", ".csv", false, []⟩] else []⟩
        "get_tables" { database := "b" }
        ⟨some [⟨"t", ["a"], [["1"]]⟩], some "a", [("t", [("a", "INTEGER")])]⟩ =
      (⟨some [⟨"t", ["a"], [["1"]]⟩], some "a", []⟩,
       .error (.load (.inaccessible "x")))
    ∧ ([("t", [("a", "INTEGER")])] : TypeMap) ≠ [] := by
  exact ⟨by decide, by decide⟩

/-- C4 (amended): `test_connection` checks that the directory exists and
holds a recognized file before loading and fails without touching the
session; but the other core methods load with no validation, so e.g.
`get_tables` on a missing directory creates an empty session for it. -/
theorem test_connection_validates
    (runSql : Store → String → Except String SqlResult) (fs : FileSys)
    (p : Params) (s : PluginState) :
    (fs.isDir p.database = false →
      handle runSql fs "test_connection" p s = (s, .error (.notDir p.database)))
    ∧ (fs.isDir p.database = true →
        (fs.files p.database).filter recognizedFile = [] →
        handle runSql fs "test_connection" p s = (s, .error (.noFiles p.database)))
    ∧ (fs.files p.database = [] →
        s.loaded_folder ≠ some p.database →
        handle runSql fs "get_tables" p s =
          ({ conn := some [], loaded_folder := some p.database, column_types := [] },
           .ok (.names []))) := by
  refine ⟨?_, ?_, ?_⟩
  · intro hdir
    simp [handle, hdir]
  · intro hdir hnone
    simp [handle, hdir, hnone]
  · intro hfiles hfold
    have hload : load_folder fs p.database = (.ok [], []) := by
      simp [load_folder, hfiles, loadFiles]
    have hel : ensure_loaded fs p.database s =
        ({ conn := some [], loaded_folder := some p.database, column_types := [] },
         .ok []) := by
      cases hc : s.conn with
      | none => simp [ensure_loaded, hc, hload]
      | some st => simp [ensure_loaded, hc, hfold, hload]
    simp [handle, hel, sortStrings]

/-- Witness for C4: a missing directory fails test_connection with the
invalid-source error and an unchanged session. -/
theorem test_connection_validates_witness :
    handle (fun _ _ => Except.error "") ⟨fun _ => false, fun _ => []⟩
        "test_connection" { database := "/nope" } initState =
      (initState, .error (.notDir "/nope")) :=
  (test_connection_validates (fun _ _ => Except.error "")
      ⟨fun _ => false, fun _ => []⟩ { database := "/nope" } initState).1 rfl

/-- Counterexample for C4 as stated: `get_tables` on a directory that does
not exist does not signal an invalid-source error — it creates and caches
an (empty) session for the invalid directory. -/
theorem invalid_dir_creates_session :
    handle (fun _ _ => Except.error "") ⟨fun _ => false, fun _ => []⟩
        "get_tables" { database := "/missing" } initState =
      ({ conn := some [], loaded_folder := some "/missing", column_types := [] },
       .ok (.names [])) := by
  decide

/-- C9 (amended): the record-write methods never write: the state after
the call is exactly the state `_ensure_loaded` alone produces, the call
never succeeds, and whenever the session for the requested directory is
cached it fails with the read-only error and a fully unchanged state; a
failing load surfaces that load's error instead. -/
theorem dml_read_only
    (runSql : Store → String → Except String SqlResult) (fs : FileSys)
    (p : Params) (s : PluginState) (method : String)
    (hm : method ∈ ["insert_record", "update_record", "delete_record"]) :
    (handle runSql fs method p s =
      ((ensure_loaded fs p.database s).1,
        match (ensure_loaded fs p.database s).2 with
        | .ok _ => .error .readOnly
        | .error e => .error (.load e)))
    ∧ (∀ st, s.conn = some st → s.loaded_folder = some p.database →
        handle runSql fs method p s = (s, .error .readOnly))
    ∧ (∀ r, (handle runSql fs method p s).2 ≠ .ok r) := by
  simp only [List.mem_cons, List.mem_singleton, List.not_mem_nil, or_false] at hm
  have main : handle runSql fs method p s =
      ((ensure_loaded fs p.database s).1,
        match (ensure_loaded fs p.database s).2 with
        | .ok _ => .error .readOnly
        | .error e => .error (.load e)) := by
    rcases hm with rfl | rfl | rfl <;>
    · rcases hel : ensure_loaded fs p.database s with ⟨s', r⟩
      cases r <;> simp [handle, hel]
  refine ⟨main, ?_, ?_⟩
  · intro st hconn hfold
    have hel : ensure_loaded fs p.database s = (s, .ok st) := by
      simp [ensure_loaded, hconn, hfold]
    rw [main, hel]
  · intro r
    rw [main]
    rcases ensure_loaded fs p.database s with ⟨s', rr⟩
    cases rr <;> simp

/-- Witness for C9: insert_record against the cached directory fails
read-only with the state unchanged. -/
theorem dml_read_only_witness :
    handle (fun _ _ => Except.error "") ⟨fun _ => true, fun _ => []⟩
        "insert_record" { database := "d" }
        ⟨some [⟨"t", ["a"], []⟩], some "d", []⟩ =
      (⟨some [⟨"t", ["a"], []⟩], some "d", []⟩, .error .readOnly) :=
  (dml_read_only (fun _ _ => Except.error "") ⟨fun _ => true, fun _ => []⟩
      { database := "d" } ⟨some [⟨"t", ["a"], []⟩], some "d", []⟩
      "insert_record" (by decide)).2.1 [⟨"t", ["a"], []⟩] rfl rfl

/-- Counterexample for C9 as stated: an insert_record whose params name a
directory with an inaccessible file fails with the propagated load error,
not the read-only error (and the cached type map is clobbered first). -/
theorem dml_error_not_readonly :
    handle (fun _ _ => Except.error "")
        ⟨fun f => f == "b", fun f => if f == "b" then
          [⟨"x", ".csv", false, []⟩] else []⟩
        "insert_record" { database := "b" }
        ⟨some [⟨"t", ["a"], [["1"]]⟩], some "a", [("t", [("a", "INTEGER")])]⟩ =
      (⟨some [⟨"t", ["a"], [["1"]]⟩], some "a", []⟩,
       .error (.load (.inaccessible "x")))
    ∧ (HandleError.load (LoadErr.inaccessible "x")) ≠ HandleError.readOnly := by
  exact ⟨by decide, by decide⟩

/-- `_sniff_delimiter` applied to the first-4096-byte sample: the stdlib
`csv.Sniffer().sniff(sample, delimiters=",;\t|")` is the abstract `sniff`
argument, returning `none` when it raises `csv.Error`; a detection failure
falls back to the comma. -/
def sniff_delimiter (sniff : String → Option Char) (sample : String) : Char :=
  match sniff sample with
  | some d => d
  | none => ','

/-- The delimiter choice of `_load_folder`:
`"\t" if path.suffix.lower() == ".tsv" else _sniff_delimiter(path)`. -/
def resolve_delimiter (sniff : String → Option Char) (suffix : String)
    (sample : String) : Char :=
  if lowerString suffix == ".tsv" then '\t' else sniff_delimiter sniff sample

/-- C8: delimiter resolution is total: provided the sniffer only ever
reports candidates from its configured set, the resolved delimiter lies in
{',', ';', tab, '|'}; a detection failure yields the comma; and a `.tsv`
suffix (case-insensitive) bypasses detection entirely and yields tab. -/
theorem resolve_delimiter_total (sniff : String → Option Char)
    (suffix sample : String)
    (hset : ∀ t d, sniff t = some d → d ∈ [',', ';', '\t', '|']) :
    resolve_delimiter sniff suffix sample ∈ [',', ';', '\t', '|']
    ∧ (sniff sample = none → lowerString suffix ≠ ".tsv" →
        resolve_delimiter sniff suffix sample = ',')
    ∧ (lowerString suffix = ".tsv" →
        ∀ sniff' : String → Option Char,
          resolve_delimiter sniff' suffix sample = '\t') := by
  refine ⟨?_, ?_, ?_⟩
  · by_cases hs : lowerString suffix == ".tsv"
    · simp [resolve_delimiter, hs]
    · cases hd : sniff sample with
      | none => simp [resolve_delimiter, sniff_delimiter, hs, hd]
      | some d =>
        have := hset sample d hd
        simpa [resolve_delimiter, sniff_delimiter, hs, hd] using this
  · intro hd hsuf
    have hs : (lowerString suffix == ".tsv") = false := by
      simpa using hsuf
    simp [resolve_delimiter, sniff_delimiter, hs, hd]
  · intro hsuf sniff'
    have hs : (lowerString suffix == ".tsv") = true := by
      simpa using hsuf
    simp [resolve_delimiter, hs]

/-- Witness for C8: a failing sniffer on a `.CSV` file yields the comma,
and a `.TSV` suffix yields tab whatever the sniffer does. -/
theorem resolve_delimiter_total_witness :
    resolve_delimiter (fun _ => none) ".CSV" "a b" = ','
    ∧ resolve_delimiter (fun _ => some ';') ".TSV" "a;b" = '\t' :=
  ⟨(resolve_delimiter_total (fun _ => none) ".CSV" "a b"
      (fun _ d hd => by cases hd)).2.1 rfl (by decide),
   (resolve_delimiter_total (fun _ => some ';') ".TSV" "a;b"
      (fun _ d hd => by simp at hd; rw [← hd]; decide)).2.2 (by decide)
     (fun _ => some ';')⟩

end CsvPlugin
